import Mathlib

/-!
# hubble: `cmd/observe/observe.go`

A shallow embedding of the package-level state of `cmd/observe` (the three
option structs and the three pflag flag sets), of the package initialiser
`init` that registers the eleven command-line options, and of `New`, which
assembles the command tree.

The libraries the file calls (pflag, cobra, fmt) are modelled as far as the
calls made here reach:

* a pflag `FlagSet` is its name, its error handling, its `SortFlags` bit and
  the slice `orderedFormal`; the maps `formal` and `shorthands` are lookups
  in that slice;
* a pflag `Value` is one of the three wrappers `boolValue`, `uint64Value`,
  `stringValue` around a pointer to a field of the option structs;
* a panic is the error of `Except`;
* `uint64` is `Nat` reduced modulo `2 ^ 64` on every store.

Constants of the repository that live outside this file
(`defaults.FlowPrintCount`, the `hubtime` layouts) and the layouts of the Go
`time` package are parameters, collected in `Consts`.
-/

namespace Hubble

/-! ## Package-level option structs -/

/-- The struct behind `selectorOpts`; the field `until` is written `until_`. -/
structure SelectorOpts where
  all : Bool
  last : Nat
  since : String
  until_ : String
  follow : Bool
  first : Nat
deriving DecidableEq, Repr

/-- The struct behind `formattingOpts`. -/
structure FormattingOpts where
  output : String
  timeFormat : String
  enableIPTranslation : Bool
  nodeName : Bool
  numeric : Bool
  color : String
deriving DecidableEq, Repr

/-- The struct behind `otherOpts`. -/
structure OtherOpts where
  ignoreStderr : Bool
  printRawFilters : Bool
deriving DecidableEq, Repr

/-- The three option variables of the package. -/
structure Vars where
  selectorOpts : SelectorOpts
  formattingOpts : FormattingOpts
  otherOpts : OtherOpts
deriving DecidableEq, Repr

/-- Go zero values of the three option variables. -/
def Vars.zero : Vars :=
  { selectorOpts := { all := false, last := 0, since := "", until_ := "", follow := false, first := 0 }
    formattingOpts := { output := "", timeFormat := "", enableIPTranslation := false,
                        nodeName := false, numeric := false, color := "" }
    otherOpts := { ignoreStderr := false, printRawFilters := false } }

/-- Addresses of the `bool` fields (`&selectorOpts.all`, ...). -/
inductive BoolPtr where
  | selectorOpts_all
  | selectorOpts_follow
  | formattingOpts_enableIPTranslation
  | formattingOpts_nodeName
  | formattingOpts_numeric
  | otherOpts_ignoreStderr
  | otherOpts_printRawFilters
deriving DecidableEq, Repr

/-- Addresses of the `uint64` fields. -/
inductive Uint64Ptr where
  | selectorOpts_last
  | selectorOpts_first
deriving DecidableEq, Repr

/-- Addresses of the `string` fields. -/
inductive StringPtr where
  | selectorOpts_since
  | selectorOpts_until
  | formattingOpts_output
  | formattingOpts_timeFormat
  | formattingOpts_color
deriving DecidableEq, Repr

/-- Dereference of a `*bool`. -/
def Vars.loadBool (v : Vars) : BoolPtr → Bool
  | .selectorOpts_all => v.selectorOpts.all
  | .selectorOpts_follow => v.selectorOpts.follow
  | .formattingOpts_enableIPTranslation => v.formattingOpts.enableIPTranslation
  | .formattingOpts_nodeName => v.formattingOpts.nodeName
  | .formattingOpts_numeric => v.formattingOpts.numeric
  | .otherOpts_ignoreStderr => v.otherOpts.ignoreStderr
  | .otherOpts_printRawFilters => v.otherOpts.printRawFilters

/-- Assignment through a `*bool`. -/
def Vars.storeBool (v : Vars) (p : BoolPtr) (b : Bool) : Vars :=
  match p with
  | .selectorOpts_all => { v with selectorOpts := { v.selectorOpts with all := b } }
  | .selectorOpts_follow => { v with selectorOpts := { v.selectorOpts with follow := b } }
  | .formattingOpts_enableIPTranslation =>
      { v with formattingOpts := { v.formattingOpts with enableIPTranslation := b } }
  | .formattingOpts_nodeName => { v with formattingOpts := { v.formattingOpts with nodeName := b } }
  | .formattingOpts_numeric => { v with formattingOpts := { v.formattingOpts with numeric := b } }
  | .otherOpts_ignoreStderr => { v with otherOpts := { v.otherOpts with ignoreStderr := b } }
  | .otherOpts_printRawFilters => { v with otherOpts := { v.otherOpts with printRawFilters := b } }

/-- Dereference of a `*uint64`. -/
def Vars.loadUint64 (v : Vars) : Uint64Ptr → Nat
  | .selectorOpts_last => v.selectorOpts.last
  | .selectorOpts_first => v.selectorOpts.first

/-- Assignment through a `*uint64`; the stored value is reduced to 64 bits. -/
def Vars.storeUint64 (v : Vars) (p : Uint64Ptr) (n : Nat) : Vars :=
  match p with
  | .selectorOpts_last => { v with selectorOpts := { v.selectorOpts with last := n % 2 ^ 64 } }
  | .selectorOpts_first => { v with selectorOpts := { v.selectorOpts with first := n % 2 ^ 64 } }

/-- Dereference of a `*string`. -/
def Vars.loadString (v : Vars) : StringPtr → String
  | .selectorOpts_since => v.selectorOpts.since
  | .selectorOpts_until => v.selectorOpts.until_
  | .formattingOpts_output => v.formattingOpts.output
  | .formattingOpts_timeFormat => v.formattingOpts.timeFormat
  | .formattingOpts_color => v.formattingOpts.color

/-- Assignment through a `*string`. -/
def Vars.storeString (v : Vars) (p : StringPtr) (s : String) : Vars :=
  match p with
  | .selectorOpts_since => { v with selectorOpts := { v.selectorOpts with since := s } }
  | .selectorOpts_until => { v with selectorOpts := { v.selectorOpts with until_ := s } }
  | .formattingOpts_output => { v with formattingOpts := { v.formattingOpts with output := s } }
  | .formattingOpts_timeFormat => { v with formattingOpts := { v.formattingOpts with timeFormat := s } }
  | .formattingOpts_color => { v with formattingOpts := { v.formattingOpts with color := s } }

/-! ## pflag -/

/-- The pflag type `ErrorHandling`. -/
inductive ErrorHandling where
  | ContinueOnError
  | ExitOnError
  | PanicOnError
deriving DecidableEq, Repr

/-- A pflag `Value`: `boolValue`, `uint64Value` or `stringValue`, each a pointer
to the variable the flag is bound to. -/
inductive Value where
  | boolValue (p : BoolPtr)
  | uint64Value (p : Uint64Ptr)
  | stringValue (p : StringPtr)
deriving DecidableEq, Repr

/-- The method `Type()` of the three wrappers. -/
def Value.typeName : Value → String
  | .boolValue _ => "bool"
  | .uint64Value _ => "uint64"
  | .stringValue _ => "string"

/-- The content of the variable a flag is bound to. -/
inductive Content where
  | bool (b : Bool)
  | uint64 (n : Nat)
  | string (s : String)
deriving DecidableEq, Repr

/-- Reads the variable behind a `Value`. -/
def Value.load (x : Value) (v : Vars) : Content :=
  match x with
  | .boolValue p => .bool (v.loadBool p)
  | .uint64Value p => .uint64 (v.loadUint64 p)
  | .stringValue p => .string (v.loadString p)

/-- The method `String()`: `strconv.FormatBool`, `strconv.FormatUint(_, 10)`, or
the string itself. -/
def Value.format (x : Value) (v : Vars) : String :=
  match x with
  | .boolValue p => if v.loadBool p then "true" else "false"
  | .uint64Value p => toString (v.loadUint64 p)
  | .stringValue p => v.loadString p

/-- The pflag struct `Flag`, with the fields that the calls of this package set. -/
structure Flag where
  name : String
  shorthand : String
  usage : String
  value : Value
  defValue : String
  changed : Bool
  noOptDefVal : String
deriving DecidableEq, Repr

/-- The pflag struct `FlagSet`. -/
structure FlagSet where
  name : String
  errorHandling : ErrorHandling
  SortFlags : Bool
  formal : List Flag
deriving DecidableEq, Repr

/-- The constructor `pflag.NewFlagSet`. -/
def NewFlagSet (name : String) (errorHandling : ErrorHandling) : FlagSet :=
  { name := name, errorHandling := errorHandling, SortFlags := true, formal := [] }

/-- What stops the program: a panic of pflag or of cobra, or a call of
`fmt.Sprintf` that leaves the fragment modelled in `Sprintf`. -/
inductive Abort where
  | flagRedefined (set name : String)
  | shorthandTooLong (shorthand : String)
  | shorthandRedefined (shorthand set usedBy : String)
  | sprintfNotModelled (format : String)
deriving DecidableEq, Repr

/-- The method `Lookup`: the flag of that name, if any. -/
def FlagSet.Lookup (f : FlagSet) (name : String) : Option Flag :=
  f.formal.find? (fun g => decide (g.name = name))

/-- The entry of the map `shorthands` for a one-byte shorthand. -/
def FlagSet.lookupShorthand (f : FlagSet) (shorthand : String) : Option Flag :=
  f.formal.find? (fun g => decide (g.shorthand ≠ "" ∧ g.shorthand = shorthand))

/-- Number of bytes of the UTF-8 encoding of a character. -/
def utf8Len (c : Char) : Nat :=
  if c.toNat < 0x80 then 1 else if c.toNat < 0x800 then 2 else if c.toNat < 0x10000 then 3 else 4

/-- The Go builtin `len` on a string: its length in bytes. -/
def goLen (s : String) : Nat := (s.data.map utf8Len).sum

/-- The method `AddFlag`: panics on a name already defined, on a shorthand longer
than one byte and on a shorthand already in use. -/
def FlagSet.AddFlag (f : FlagSet) (flag : Flag) : Except Abort FlagSet :=
  match f.Lookup flag.name with
  | some _ => .error (.flagRedefined f.name flag.name)
  | none =>
    let f1 := { f with formal := f.formal ++ [flag] }
    if flag.shorthand = "" then .ok f1
    else if goLen flag.shorthand > 1 then .error (.shorthandTooLong flag.shorthand)
    else
      match f.lookupShorthand flag.shorthand with
      | some used => .error (.shorthandRedefined flag.shorthand f.name used.name)
      | none => .ok f1

/-- The method `VarPF`: builds the `Flag` around a value and adds it. -/
def FlagSet.VarPF (f : FlagSet) (v : Vars) (value : Value) (name shorthand usage : String) :
    Except Abort (Flag × FlagSet) :=
  let flag : Flag :=
    { name := name, shorthand := shorthand, usage := usage, value := value,
      defValue := value.format v, changed := false, noOptDefVal := "" }
  (f.AddFlag flag).map (fun f1 => (flag, f1))

/-- The method `VarP`. -/
def FlagSet.VarP (f : FlagSet) (v : Vars) (value : Value) (name shorthand usage : String) :
    Except Abort FlagSet :=
  (f.VarPF v value name shorthand usage).map (fun r => r.2)

/-- Sets `NoOptDefVal` of the flag just added (the last of the slice). -/
def FlagSet.setNoOptDefValOfLast (f : FlagSet) (s : String) : FlagSet :=
  match f.formal.reverse with
  | [] => f
  | g :: gs => { f with formal := (({ g with noOptDefVal := s } : Flag) :: gs).reverse }

/-- The method `BoolVarP`: `newBoolValue` stores the default through the pointer,
the flag is added, and its `NoOptDefVal` becomes `"true"`. -/
def FlagSet.BoolVarP (f : FlagSet) (v : Vars) (p : BoolPtr) (name shorthand : String)
    (value : Bool) (usage : String) : Except Abort (FlagSet × Vars) :=
  let v1 := v.storeBool p value
  (f.VarPF v1 (.boolValue p) name shorthand usage).map
    (fun r => (r.2.setNoOptDefValOfLast "true", v1))

/-- The method `BoolVar`: `BoolVarP` without shorthand. -/
def FlagSet.BoolVar (f : FlagSet) (v : Vars) (p : BoolPtr) (name : String)
    (value : Bool) (usage : String) : Except Abort (FlagSet × Vars) :=
  f.BoolVarP v p name "" value usage

/-- The method `Uint64VarP`. -/
def FlagSet.Uint64VarP (f : FlagSet) (v : Vars) (p : Uint64Ptr) (name shorthand : String)
    (value : Nat) (usage : String) : Except Abort (FlagSet × Vars) :=
  let v1 := v.storeUint64 p value
  (f.VarP v1 (.uint64Value p) name shorthand usage).map (fun f1 => (f1, v1))

/-- The method `Uint64Var`. -/
def FlagSet.Uint64Var (f : FlagSet) (v : Vars) (p : Uint64Ptr) (name : String)
    (value : Nat) (usage : String) : Except Abort (FlagSet × Vars) :=
  f.Uint64VarP v p name "" value usage

/-- The method `StringVarP`. -/
def FlagSet.StringVarP (f : FlagSet) (v : Vars) (p : StringPtr) (name shorthand : String)
    (value : String) (usage : String) : Except Abort (FlagSet × Vars) :=
  let v1 := v.storeString p value
  (f.VarP v1 (.stringValue p) name shorthand usage).map (fun f1 => (f1, v1))

/-- The method `StringVar`. -/
def FlagSet.StringVar (f : FlagSet) (v : Vars) (p : StringPtr) (name : String)
    (value : String) (usage : String) : Except Abort (FlagSet × Vars) :=
  f.StringVarP v p name "" value usage

/-! ## fmt -/

/-- An operand of `fmt.Sprintf`: a string or an integer. -/
inductive Operand where
  | str (s : String)
  | int (n : Int)
deriving DecidableEq, Repr

/-- The format loop of `fmt.Sprintf` on the fragment that `init` uses: plain
text, `%%`, `%s` with a string operand and `%d` with an integer operand, as many
operands as verbs. Outside of it (where Go prints a `%!` diagnostic) the model
gives `none`. -/
def sprintfChars : List Char → List Operand → Option (List Char)
  | [], [] => some []
  | [], _ :: _ => none
  | c :: cs, ops =>
    if c = '%' then
      match cs, ops with
      | v :: rest, [] => if v = '%' then (sprintfChars rest []).map (fun r => '%' :: r) else none
      | v :: rest, .str a :: ops1 =>
        if v = '%' then (sprintfChars rest (.str a :: ops1)).map (fun r => '%' :: r)
        else if v = 's' then (sprintfChars rest ops1).map (fun r => a.data ++ r)
        else none
      | v :: rest, .int n :: ops1 =>
        if v = '%' then (sprintfChars rest (.int n :: ops1)).map (fun r => '%' :: r)
        else if v = 'd' then (sprintfChars rest ops1).map (fun r => (toString n).data ++ r)
        else none
      | [], _ => none
    else (sprintfChars cs ops).map (fun r => c :: r)

/-- The function `fmt.Sprintf`, on the fragment of `sprintfChars`. -/
def Sprintf (format : String) (ops : List Operand) : Except Abort String :=
  match sprintfChars format.data ops with
  | some r => .ok (String.mk r)
  | none => .error (.sprintfNotModelled format)

/-! ## Constants from other packages -/

/-- The constants `init` reads: `defaults.FlowPrintCount`, the layouts of the Go
package `time` (`StampMilli`, `RFC3339`, `RFC3339Nano`, `RFC1123Z`) and those of
the package `hubtime` (the other five). -/
structure Consts where
  FlowPrintCount : Nat
  StampMilli : String
  YearMonthDay : String
  YearMonthDayHour : String
  YearMonthDayHourMinute : String
  RFC3339 : String
  RFC3339Milli : String
  RFC3339Micro : String
  RFC3339Nano : String
  RFC1123Z : String
deriving DecidableEq, Repr

/-! ## The literals of `init` -/

/-- Format of the usage text of `--last`. -/
def lastUsageFormat : String := "Get last N flows stored in Hubble's buffer (default %d)"

/-- Format of the usage text of `--since` (a raw string literal in the source). -/
def sinceUsageFormat : String :=
  "Filter flows since a specific date. The format is relative (e.g. 3s, 4m, 1h43,, ...) or one of:\n" ++
  "  StampMilli:             %s\n" ++
  "  YearMonthDay:           %s\n" ++
  "  YearMonthDayHour:       %s\n" ++
  "  YearMonthDayHourMinute: %s\n" ++
  "  RFC3339:                %s\n" ++
  "  RFC3339Milli:           %s\n" ++
  "  RFC3339Micro:           %s\n" ++
  "  RFC3339Nano:            %s\n" ++
  "  RFC1123Z:               %s\n" ++
  " "

/-- Format of the usage text of `--until`. -/
def untilUsageFormat : String :=
  "Filter flows until a specific date. The format is relative (e.g. 3s, 4m, 1h43,, ...) or one of:\n" ++
  "  StampMilli:             %s\n" ++
  "  YearMonthDay:           %s\n" ++
  "  YearMonthDayHour:       %s\n" ++
  "  YearMonthDayHourMinute: %s\n" ++
  "  RFC3339:                %s\n" ++
  "  RFC3339Milli:           %s\n" ++
  "  RFC3339Micro:           %s\n" ++
  "  RFC3339Nano:            %s\n" ++
  "  RFC1123Z:               %s\n" ++
  " "

/-- Usage text of `--output`. -/
def outputUsage : String :=
  "Specify the output format, one of:\n" ++
  "  compact:  Compact output\n" ++
  "  dict:     Each flow is shown as KEY:VALUE pair\n" ++
  "  jsonpb:   JSON encoded GetFlowResponse according to proto3's JSON mapping\n" ++
  "  json:     Alias for jsonpb\n" ++
  "  table:    Tab-aligned columns\n"

/-- Format of the usage text of `--time-format`. -/
def timeFormatUsageFormat : String :=
  "Specify the time format for printing. This option does not apply to the json and jsonpb output type. One of:\n" ++
  "  StampMilli:             %s\n" ++
  "  YearMonthDay:           %s\n" ++
  "  YearMonthDayHour:       %s\n" ++
  "  YearMonthDayHourMinute: %s\n" ++
  "  RFC3339:                %s\n" ++
  "  RFC3339Milli:           %s\n" ++
  "  RFC3339Micro:           %s\n" ++
  "  RFC3339Nano:            %s\n" ++
  "  RFC1123Z:               %s\n" ++
  " "

/-- Operands of the `fmt.Sprintf` call for `--since`, in source order. -/
def sinceOperands (C : Consts) : List Operand :=
  [.str C.StampMilli, .str C.YearMonthDay, .str C.YearMonthDayHour, .str C.YearMonthDayHourMinute,
   .str C.RFC3339, .str C.RFC3339Milli, .str C.RFC3339Micro, .str C.RFC3339Nano, .str C.RFC1123Z]

/-- Operands of the `fmt.Sprintf` call for `--until`, in source order. -/
def untilOperands (C : Consts) : List Operand :=
  [.str C.StampMilli, .str C.YearMonthDay, .str C.YearMonthDayHour, .str C.YearMonthDayHourMinute,
   .str C.RFC3339, .str C.RFC3339Milli, .str C.RFC3339Micro, .str C.RFC3339Nano, .str C.RFC1123Z]

/-- Operands of the `fmt.Sprintf` call for `--time-format`, in source order. -/
def timeFormatOperands (C : Consts) : List Operand :=
  [.str C.StampMilli, .str C.YearMonthDay, .str C.YearMonthDayHour, .str C.YearMonthDayHourMinute,
   .str C.RFC3339, .str C.RFC3339Milli, .str C.RFC3339Micro, .str C.RFC3339Nano, .str C.RFC1123Z]

/-! ## Package state and `init` -/

/-- The package-level variables: the option structs and the three flag sets. -/
structure State where
  vars : Vars
  selectorFlags : FlagSet
  formattingFlags : FlagSet
  otherFlags : FlagSet
deriving DecidableEq, Repr

/-- The variables as their declarations initialise them, before `init` runs. -/
def State.initial : State :=
  { vars := Vars.zero
    selectorFlags := NewFlagSet "selectors" .ContinueOnError
    formattingFlags := NewFlagSet "Formatting" .ContinueOnError
    otherFlags := NewFlagSet "other" .ContinueOnError }

/-- The function `init`, statement by statement. -/
def init (C : Consts) (s : State) : Except Abort State := do
  let (sel, v) ← s.selectorFlags.BoolVar s.vars .selectorOpts_all "all" false
    "Get all flows stored in Hubble's buffer"
  let lastUsage ← Sprintf lastUsageFormat [.int C.FlowPrintCount]
  let (sel, v) ← sel.Uint64Var v .selectorOpts_last "last" 0 lastUsage
  let (sel, v) ← sel.Uint64Var v .selectorOpts_first "first" 0
    "Get first N flows stored in Hubble's buffer"
  let (sel, v) ← sel.BoolVarP v .selectorOpts_follow "follow" "f" false "Follow flows output"
  let sinceUsage ← Sprintf sinceUsageFormat (sinceOperands C)
  let (sel, v) ← sel.StringVar v .selectorOpts_since "since" "" sinceUsage
  let untilUsage ← Sprintf untilUsageFormat (untilOperands C)
  let (sel, v) ← sel.StringVar v .selectorOpts_until "until" "" untilUsage
  let (fmtSet, v) ← s.formattingFlags.StringVarP v .formattingOpts_output "output" "o" "compact"
    outputUsage
  let (fmtSet, v) ← fmtSet.BoolVarP v .formattingOpts_nodeName "print-node-name" "" false
    "Print node name in output"
  let timeFormatUsage ← Sprintf timeFormatUsageFormat (timeFormatOperands C)
  let (fmtSet, v) ← fmtSet.StringVar v .formattingOpts_timeFormat "time-format" "StampMilli"
    timeFormatUsage
  let (oth, v) ← s.otherFlags.BoolVarP v .otherOpts_ignoreStderr "silent-errors" "s" false
    "Silently ignores errors and warnings"
  let (oth, v) ← oth.BoolVar v .otherOpts_printRawFilters "print-raw-filters" false
    "Print allowlist/denylist filters and exit without sending the request to Hubble server"
  return { vars := v, selectorFlags := sel, formattingFlags := fmtSet, otherFlags := oth }

/-- All registered flags: those of `selectorFlags`, then `formattingFlags`, then
`otherFlags`. -/
def State.allFlags (s : State) : List Flag :=
  s.selectorFlags.formal ++ s.formattingFlags.formal ++ s.otherFlags.formal

/-! ## Reading a usage text -/

/-- Cuts a text at every line feed. -/
def splitLines : List Char → List (List Char)
  | [] => [[]]
  | c :: cs =>
    if c = '\n' then [] :: splitLines cs
    else
      match splitLines cs with
      | [] => [[c]]
      | l :: ls => (c :: l) :: ls

/-- Drops leading blanks. -/
def dropBlanks : List Char → List Char
  | [] => []
  | c :: cs => if c = ' ' then dropBlanks cs else c :: cs

/-- Cuts a line at its first colon. -/
def splitColon : List Char → Option (List Char × List Char)
  | [] => none
  | c :: cs => if c = ':' then some ([], cs) else (splitColon cs).map (fun r => (c :: r.1, r.2))

/-- An entry line of a usage text: two blanks, a label, a colon, blanks, a text. -/
def usageEntry (line : List Char) : Option (String × String) :=
  match line with
  | a :: b :: rest =>
    if a = ' ' ∧ b = ' ' then
      (splitColon rest).map (fun r => (String.mk r.1, String.mk (dropBlanks r.2)))
    else none
  | _ => none

/-- The entries `label: text` a usage text lists, in the order of its lines. -/
def usageEntries (usage : String) : List (String × String) :=
  (splitLines usage.data).filterMap usageEntry

/-- The labels of the entries of a format whose text is the verb `%s`. -/
def layoutNames (format : String) : List String :=
  ((usageEntries format).filter (fun e => decide (e.2 = "%s"))).map (fun e => e.1)

/-- Number of `%` characters of a format. -/
def verbCount (format : String) : Nat := format.data.count '%'

/-- The table a format and its operands enumerate: the i-th label with the
i-th operand. -/
def layoutTable (format : String) (ops : List Operand) : List (String × Operand) :=
  (layoutNames format).zip ops

/-- One name extends another: the shorter is a proper initial segment of it. -/
def extendsName (long short : String) : Bool :=
  short.data.isPrefixOf long.data && decide (short.data.length < long.data.length)

/-- Position of the first occurrence of a name in a list. -/
def position (x : String) : List String → Option Nat
  | [] => none
  | y :: ys => if y = x then some 0 else (position x ys).map (fun i => i + 1)

/-- Whether `a` stands before `b` in a list of names. -/
def precedes (a b : String) (names : List String) : Bool :=
  match position a names, position b names with
  | some i, some j => decide (i < j)
  | _, _ => false

/-! ## pflag: setting and merging -/

/-- The function `strconv.ParseBool`: the value and whether the text was accepted. -/
def ParseBool (s : String) : Bool × Bool :=
  if s = "1" ∨ s = "t" ∨ s = "T" ∨ s = "TRUE" ∨ s = "true" ∨ s = "True" then (true, true)
  else if s = "0" ∨ s = "f" ∨ s = "F" ∨ s = "FALSE" ∨ s = "false" ∨ s = "False" then (false, true)
  else (false, false)

/-- The method `Set` of the three wrappers. `parseUint` stands for
`strconv.ParseUint(_, 0, 64)`: the value and whether the text was accepted. As in
pflag, the parsed value is stored also when the text was rejected. -/
def Value.Set (parseUint : String → Nat × Bool) (x : Value) (s : String) (v : Vars) : Bool × Vars :=
  match x with
  | .boolValue p => ((ParseBool s).2, v.storeBool p (ParseBool s).1)
  | .uint64Value p => ((parseUint s).2, v.storeUint64 p (parseUint s).1)
  | .stringValue p => (true, v.storeString p s)

/-- The errors of `FlagSet.Set`. -/
inductive SetError where
  | noSuchFlag (name : String)
  | invalidArgument (value name : String)
deriving DecidableEq, Repr

/-- Marks the flag of the given name as changed. -/
def FlagSet.markChanged (f : FlagSet) (name : String) : FlagSet :=
  { f with formal := f.formal.map (fun g => if g.name = name then { g with changed := true } else g) }

/-- The method `FlagSet.Set`: looks the flag up, sets its value, marks it changed. -/
def FlagSet.Set (parseUint : String → Nat × Bool) (f : FlagSet) (name value : String) (v : Vars) :
    Option SetError × FlagSet × Vars :=
  match f.Lookup name with
  | none => (some (.noSuchFlag name), f, v)
  | some flag =>
    if (flag.value.Set parseUint value v).1 then
      (none, f.markChanged name, (flag.value.Set parseUint value v).2)
    else (some (.invalidArgument value flag.name), f, (flag.value.Set parseUint value v).2)

/-- Go string order `a < b`: lexicographic on bytes, which on UTF-8 is the order
of the code points. -/
def goStringLt : List Char → List Char → Bool
  | [], [] => false
  | [], _ :: _ => true
  | _ :: _, [] => false
  | a :: as, b :: bs =>
    if a.toNat < b.toNat then true else if b.toNat < a.toNat then false else goStringLt as bs

/-- Inserts a flag into a list sorted by name. -/
def insertByName (g : Flag) : List Flag → List Flag
  | [] => [g]
  | h :: hs => if goStringLt h.name.data g.name.data then h :: insertByName g hs else g :: h :: hs

/-- The pflag function `sortFlags`: the flags in the order of their names. -/
def sortFlags (l : List Flag) : List Flag := l.foldr insertByName []

/-- The order in which `VisitAll` visits: by name when `SortFlags` is set,
else the order of definition. -/
def FlagSet.visitAllOrder (f : FlagSet) : List Flag :=
  if f.SortFlags then sortFlags f.formal else f.formal

/-- The method `AddFlagSet`: adds every flag of `newSet` whose name is not yet
defined. -/
def FlagSet.AddFlagSet (f : FlagSet) (newSet : FlagSet) : Except Abort FlagSet :=
  newSet.visitAllOrder.foldlM
    (fun acc flag =>
      match acc.Lookup flag.name with
      | none => acc.AddFlag flag
      | some _ => .ok acc)
    f

/-- The three flag sets of the package merged into the flag set of one command,
in the order selectors, Formatting, other. -/
def mergeFlags (target : FlagSet) (s : State) : Except Abort FlagSet := do
  let f1 ← target.AddFlagSet s.selectorFlags
  let f2 ← f1.AddFlagSet s.formattingFlags
  f2.AddFlagSet s.otherFlags

/-! ## cobra and `New` -/

/-- A cobra `Command`: its own fields, and the slice `commands` of its children. -/
inductive Command (Body : Type) where
  | mk (body : Body) (commands : List (Command Body))

/-- The own fields of a command. -/
def Command.body {Body : Type} : Command Body → Body
  | .mk b _ => b

/-- The slice `commands` of a command. -/
def Command.commands {Body : Type} : Command Body → List (Command Body)
  | .mk _ cs => cs

/-- The method `AddCommand`: appends the given commands to `commands`, in the
order of the arguments. Its panic on a command added to itself compares
pointers, which values do not have; each constructor call yields a command of
its own, so that branch is not taken in `New`. -/
def Command.AddCommand {Body : Type} (c : Command Body) (cmds : List (Command Body)) : Command Body :=
  .mk c.body (c.commands ++ cmds)

/-- The four constructors of the package that `New` calls; they are defined in
other files. -/
structure Constructors (Viper Body : Type) where
  newObserveCmd : Viper → Command Body
  newFlowsCmd : Viper → Command Body
  newAgentEventsCommand : Viper → Command Body
  newDebugEventsCommand : Viper → Command Body

/-- The function `New`. -/
def New {Viper Body : Type} (K : Constructors Viper Body) (vp : Viper) : Command Body :=
  let observeCmd := K.newObserveCmd vp
  let flowsCmd := K.newFlowsCmd vp
  observeCmd.AddCommand [K.newAgentEventsCommand vp, K.newDebugEventsCommand vp, flowsCmd]

/-! ## The selector validator and the output dispatcher

The code that validates the selector values, resolves the time bounds, goes
through the absolute layouts and dispatches on the output format and the time
format is not part of `observe.go`. The definitions of this section follow
the specification (sections 3, 4.1, 4.2, 4.3 and 6). -/

/-- Modelled from the spec: the direction of a bounded query (section 3); the
query construction is missing from the source. -/
inductive Direction where
  | Last
  | First
deriving DecidableEq, Repr

/-- Modelled from the spec: the mode of a `QueryDescriptor` (section 3); the
query construction is missing from the source. -/
inductive Mode where
  | Bounded (count : Nat) (direction : Direction)
  | Unbounded
deriving DecidableEq, Repr

/-- Modelled from the spec: a resolved `TimeBoundary` (sections 3 and 4.1), an
instant in nanoseconds; the resolver is missing from the source. -/
inductive TimeBoundary where
  | Relative (instant : Int)
  | Absolute (instant : Int)
deriving DecidableEq, Repr

/-- Modelled from the spec: the instant of a resolved boundary. -/
def TimeBoundary.instant : TimeBoundary → Int
  | .Relative t => t
  | .Absolute t => t

/-- Modelled from the spec: the `QueryDescriptor` of section 3; the query
construction is missing from the source. -/
structure QueryDescriptor where
  mode : Mode
  since : Option TimeBoundary
  until_ : Option TimeBoundary
  follow : Bool
deriving DecidableEq, Repr

/-- Modelled from the spec: the errors of the taxonomy (section 7) that the
selector validator and the time resolver raise; `ConflictingSelectors` carries
the names of the offending flags. -/
inductive BuildError where
  | InvalidTimeExpression (expr : String)
  | ConflictingSelectors (flags : List String)
  | InvalidTimeRange
deriving DecidableEq, Repr

/-- The parsers of a duration and of an absolute time, which the resolver of
section 4.1 calls; both are outside the source. -/
structure TimeParsers where
  parseDuration : String → Option Int
  parseAbsolute : String → Option Int

/-- Modelled from the spec: `resolve` of section 4.1, missing from the source.
The empty string is no boundary; a duration is tried first and means that far
before `now`; then an absolute time; else `InvalidTimeExpression`. -/
def resolve (P : TimeParsers) (expr : String) (now : Int) : Except BuildError (Option TimeBoundary) :=
  if expr = "" then .ok none
  else
    match P.parseDuration expr with
    | some d => .ok (some (.Relative (now - d)))
    | none =>
      match P.parseAbsolute expr with
      | some t => .ok (some (.Absolute t))
      | none => .error (.InvalidTimeExpression expr)

/-- Modelled from the spec: the selectors among `all`, `last`, `first` that are
given (`all` true, a count above zero), by flag name. -/
def givenSelectors (o : SelectorOpts) : List String :=
  (if o.all then ["all"] else []) ++ (if 0 < o.last then ["last"] else []) ++
    (if 0 < o.first then ["first"] else [])

/-- Modelled from the spec: the fixed constant `DefaultFlowCount` of rule 2 of
section 4.2. It is the constant `defaults.FlowPrintCount` of the source, the one
the usage text of `--last` gives as the default. -/
def DefaultFlowCount (C : Consts) : Nat := C.FlowPrintCount

/-- Modelled from the spec: `build` of section 4.2, missing from the source, on
the values of `selectorOpts`. Rule 1 rejects more than one of `all`, `last`,
`first`; rules 2 and 3 give the default mode; rule 4 orders the time range.
The spec does not say which mode a lone `all` gives: it is the parameter
`allMode`. -/
def build (C : Consts) (allMode : Mode) (P : TimeParsers) (now : Int)
    (o : SelectorOpts) : Except BuildError QueryDescriptor :=
  if 1 < (givenSelectors o).length then .error (.ConflictingSelectors (givenSelectors o))
  else
    let mode : Mode :=
      if o.all then allMode
      else if 0 < o.last then .Bounded o.last .Last
      else if 0 < o.first then .Bounded o.first .First
      else if o.follow then .Unbounded
      else .Bounded (DefaultFlowCount C) .Last
    match resolve P o.since now with
    | .error e => .error e
    | .ok since =>
      match resolve P o.until_ now with
      | .error e => .error e
      | .ok until_ =>
        match since, until_ with
        | some a, some b =>
          if a.instant ≤ b.instant then
            .ok { mode := mode, since := since, until_ := until_, follow := o.follow }
          else .error .InvalidTimeRange
        | _, _ => .ok { mode := mode, since := since, until_ := until_, follow := o.follow }

/-- Modelled from the spec: the encodings of a `RenderDescriptor` (section 3);
the output dispatcher is missing from the source. -/
inductive Encoding where
  | Compact
  | Dict
  | JSON
  | Table
deriving DecidableEq, Repr

/-- Modelled from the spec: the errors of an unrecognised output format and of
an unrecognised time format, each with the valid set (section 4.3). -/
inductive RenderError where
  | InvalidOutputFormat (value : String) (valid : List String)
  | InvalidTimeFormat (value : String) (valid : List String)
deriving DecidableEq, Repr

/-- Modelled from the spec: the match of `output` against the closed set of
section 4.3, missing from the source; `json` is an alias of `jsonpb`. -/
def parseOutput (output : String) : Except RenderError Encoding :=
  if output = "compact" then .ok .Compact
  else if output = "dict" then .ok .Dict
  else if output = "jsonpb" then .ok .JSON
  else if output = "json" then .ok .JSON
  else if output = "table" then .ok .Table
  else .error (.InvalidOutputFormat output ["compact", "dict", "jsonpb", "json", "table"])

/-- Modelled from the spec: `TimeFormatSpec` of section 3, the closed
enumeration of nine layouts, missing from the source; the nine are named as
the usage texts of the source name them. -/
inductive TimeFormatSpec where
  | StampMilli
  | YearMonthDay
  | YearMonthDayHour
  | YearMonthDayHourMinute
  | RFC3339
  | RFC3339Milli
  | RFC3339Micro
  | RFC3339Nano
  | RFC1123Z
deriving DecidableEq, Repr

/-- Modelled from the spec: the name of a layout of the enumeration. -/
def TimeFormatSpec.name : TimeFormatSpec → String
  | .StampMilli => "StampMilli"
  | .YearMonthDay => "YearMonthDay"
  | .YearMonthDayHour => "YearMonthDayHour"
  | .YearMonthDayHourMinute => "YearMonthDayHourMinute"
  | .RFC3339 => "RFC3339"
  | .RFC3339Milli => "RFC3339Milli"
  | .RFC3339Micro => "RFC3339Micro"
  | .RFC3339Nano => "RFC3339Nano"
  | .RFC1123Z => "RFC1123Z"

/-- Modelled from the spec: all values of `TimeFormatSpec`. -/
def TimeFormatSpec.all : List TimeFormatSpec :=
  [.StampMilli, .YearMonthDay, .YearMonthDayHour, .YearMonthDayHourMinute, .RFC3339,
   .RFC3339Milli, .RFC3339Micro, .RFC3339Nano, .RFC1123Z]

/-- Modelled from the spec: the parse of the `time-format` option (sections 3
and 4.3), missing from the source: a name of the enumeration is resolved, any
other value fails with `InvalidTimeFormat`. -/
def parseTimeFormat (timeFormatStr : String) : Except RenderError TimeFormatSpec :=
  match TimeFormatSpec.all.find? (fun t => decide (t.name = timeFormatStr)) with
  | some t => .ok t
  | none => .error (.InvalidTimeFormat timeFormatStr (TimeFormatSpec.all.map (fun t => t.name)))

/-- Modelled from the spec: the accepted absolute time layouts in the fixed
order of section 6, most specific first; the list the resolver goes through is
missing from the source. -/
def absoluteLayouts : List TimeFormatSpec :=
  [.StampMilli, .RFC3339Nano, .RFC3339Micro, .RFC3339Milli, .RFC3339, .RFC1123Z,
   .YearMonthDayHourMinute, .YearMonthDayHour, .YearMonthDay]

/-- Modelled from the spec: the absolute parse of section 4.1, missing from
the source: the layouts are tried in the order of the list and the first that
matches wins. `tryLayout` stands for the parse of an input against one layout. -/
def parseAbsoluteIn (tryLayout : TimeFormatSpec → String → Option Int) :
    List TimeFormatSpec → String → Option (TimeFormatSpec × Int)
  | [], _ => none
  | l :: ls, input =>
    match tryLayout l input with
    | some t => some (l, t)
    | none => parseAbsoluteIn tryLayout ls input

/-- Modelled from the spec: the parsers of the resolver with the absolute parse
going through `absoluteLayouts`. -/
def TimeParsers.ordered (parseDuration : String → Option Int)
    (tryLayout : TimeFormatSpec → String → Option Int) : TimeParsers :=
  { parseDuration := parseDuration
    parseAbsolute := fun input => (parseAbsoluteIn tryLayout absoluteLayouts input).map (fun r => r.2) }

/-! ## The layouts in the usage texts -/

/-- The nine layout constants, in the order of the operands of `init`. -/
def Consts.layouts (C : Consts) : List String :=
  [C.StampMilli, C.YearMonthDay, C.YearMonthDayHour, C.YearMonthDayHourMinute, C.RFC3339,
   C.RFC3339Milli, C.RFC3339Micro, C.RFC3339Nano, C.RFC1123Z]

/-- No layout constant holds a line feed. -/
def Consts.singleLine (C : Consts) : Prop := ∀ l ∈ C.layouts, '\n' ∉ l.data

/-- What follows the first line in the formatted usage texts of `--since`,
`--until` and `--time-format`: the nine entry lines, each with its operand in
the place of the verb, and the closing line of one blank. -/
def layoutListing (C : Consts) : String :=
  "\n  StampMilli:             " ++ (C.StampMilli ++
  ("\n  YearMonthDay:           " ++ (C.YearMonthDay ++
  ("\n  YearMonthDayHour:       " ++ (C.YearMonthDayHour ++
  ("\n  YearMonthDayHourMinute: " ++ (C.YearMonthDayHourMinute ++
  ("\n  RFC3339:                " ++ (C.RFC3339 ++
  ("\n  RFC3339Milli:           " ++ (C.RFC3339Milli ++
  ("\n  RFC3339Micro:           " ++ (C.RFC3339Micro ++
  ("\n  RFC3339Nano:            " ++ (C.RFC3339Nano ++
  ("\n  RFC1123Z:               " ++ (C.RFC1123Z ++ "\n ")))))))))))))))))

/-- The entries that `layoutListing` shows: each of the nine names with its
layout constant, leading blanks dropped as `usageEntry` drops the padding. -/
def listedLayouts (C : Consts) : List (String × String) :=
  (["StampMilli", "YearMonthDay", "YearMonthDayHour", "YearMonthDayHourMinute", "RFC3339",
    "RFC3339Milli", "RFC3339Micro", "RFC3339Nano", "RFC1123Z"].zip C.layouts).map
    (fun e => (e.1, String.mk (dropBlanks e.2.data)))

/-- A listing built line by line: a line feed, the start of the line, the
operand; at the end the closing line of one blank. -/
def listingChars : List (List Char × String) → List Char
  | [] => ['\n', ' ']
  | e :: es => '\n' :: (e.1 ++ (e.2.data ++ listingChars es))

/-- The starts of the nine entry lines, each with its operand. -/
def listingParts (C : Consts) : List (List Char × String) :=
  [("  StampMilli:             ".data, C.StampMilli),
   ("  YearMonthDay:           ".data, C.YearMonthDay),
   ("  YearMonthDayHour:       ".data, C.YearMonthDayHour),
   ("  YearMonthDayHourMinute: ".data, C.YearMonthDayHourMinute),
   ("  RFC3339:                ".data, C.RFC3339),
   ("  RFC3339Milli:           ".data, C.RFC3339Milli),
   ("  RFC3339Micro:           ".data, C.RFC3339Micro),
   ("  RFC3339Nano:            ".data, C.RFC3339Nano),
   ("  RFC1123Z:               ".data, C.RFC1123Z)]

/-! ## Sample constants -/

/-- The values the constants have in the Go package `time` and, for
illustration, a flow count of 20 and RFC3339-like layouts for `hubtime`. -/
def Consts.sample : Consts :=
  { FlowPrintCount := 20
    StampMilli := "Jan _2 15:04:05.000"
    YearMonthDay := "2006-01-02"
    YearMonthDayHour := "2006-01-02T15Z07:00"
    YearMonthDayHourMinute := "2006-01-02T15:04Z07:00"
    RFC3339 := "2006-01-02T15:04:05Z07:00"
    RFC3339Milli := "2006-01-02T15:04:05.999Z07:00"
    RFC3339Micro := "2006-01-02T15:04:05.999999Z07:00"
    RFC3339Nano := "2006-01-02T15:04:05.999999999Z07:00"
    RFC1123Z := "Mon, 02 Jan 2006 15:04:05 -0700" }

/-- Time parsers that accept nothing, for examples with empty time bounds. -/
def TimeParsers.none : TimeParsers :=
  { parseDuration := fun _ => Option.none, parseAbsolute := fun _ => Option.none }

/-! ## Theorems -/

set_option maxRecDepth 1000000

/-! ### Lemmas on the library model -/

/-- Setting through one pointer leaves the variable behind any other pointer
as it was. -/
theorem Value.load_Set_of_ne (parseUint : String → Nat × Bool) (x y : Value) (t : String) (v : Vars)
    (h : y ≠ x) : y.load (x.Set parseUint t v).2 = y.load v := by
  rcases x with p | p | p <;> rcases y with q | q | q <;> cases p <;> cases q <;>
    first
      | rfl
      | exact absurd rfl h

/-- Inserting a flag into a list keeps the flags. -/
theorem insertByName_perm (g : Flag) (l : List Flag) : List.Perm (insertByName g l) (g :: l) := by
  induction l with
  | nil => exact List.Perm.refl _
  | cons h hs ih =>
    unfold insertByName
    split
    · exact (List.Perm.cons h ih).trans (List.Perm.swap g h hs)
    · exact List.Perm.refl _

/-- Sorting flags by name keeps the flags. -/
theorem sortFlags_perm (l : List Flag) : List.Perm (sortFlags l) l := by
  induction l with
  | nil => exact List.Perm.refl _
  | cons g gs ih => exact (insertByName_perm g (sortFlags gs)).trans (List.Perm.cons g ih)

/-- In a flag set whose flags are bound to pairwise distinct variables, `Set`
on one name leaves every flag of another name in the set, and the variable it
is bound to unchanged. -/
theorem FlagSet.Set_keeps_other_flags (parseUint : String → Nat × Bool) (f : FlagSet)
    (hnd : (f.formal.map (fun g => g.value)).Nodup) (name value : String) (v : Vars) (g : Flag)
    (hg : g ∈ f.formal) (hne : g.name ≠ name) :
    g.value.load (f.Set parseUint name value v).2.2 = g.value.load v ∧
      g ∈ (f.Set parseUint name value v).2.1.formal := by
  have hmark : g ∈ (f.markChanged name).formal :=
    List.mem_map.mpr ⟨g, hg, if_neg hne⟩
  unfold FlagSet.Set
  cases hl : f.Lookup name with
  | none => exact ⟨rfl, hg⟩
  | some flag =>
    have hmem : flag ∈ f.formal := List.mem_of_find?_eq_some hl
    have hname : flag.name = name := by simpa using List.find?_some hl
    have hfg : g ≠ flag := fun e => hne (e ▸ hname)
    have hval : g.value ≠ flag.value := fun e => hfg (List.inj_on_of_nodup_map hnd hg hmem e)
    have hload := Value.load_Set_of_ne parseUint flag.value g.value value v hval
    by_cases hok : (flag.value.Set parseUint value v).1 = true
    · simp only [hok, if_true]
      exact ⟨hload, hmark⟩
    · simp only [hok]
      exact ⟨hload, hg⟩

/-- What evaluation of `init` and of the merge gives: the names, shorthands and
bound variables of the registered flags, and the flags of the merged set. -/
theorem init_merge_facts (C : Consts) :
    ∃ s, init C State.initial = .ok s ∧
      s.allFlags.map (fun g => g.name) =
        ["all", "last", "first", "follow", "since", "until", "output", "print-node-name",
         "time-format", "silent-errors", "print-raw-filters"] ∧
      (s.allFlags.map (fun g => g.shorthand)).filter (fun x => decide (x ≠ "")) = ["f", "o", "s"] ∧
      s.allFlags.map (fun g => g.value) =
        [.boolValue .selectorOpts_all, .uint64Value .selectorOpts_last,
         .uint64Value .selectorOpts_first, .boolValue .selectorOpts_follow,
         .stringValue .selectorOpts_since, .stringValue .selectorOpts_until,
         .stringValue .formattingOpts_output, .boolValue .formattingOpts_nodeName,
         .stringValue .formattingOpts_timeFormat, .boolValue .otherOpts_ignoreStderr,
         .boolValue .otherOpts_printRawFilters] ∧
      (∀ (n : String) (e : ErrorHandling) (sf : Bool),
        ∃ m, mergeFlags { name := n, errorHandling := e, SortFlags := sf, formal := [] } s = .ok m ∧
          m.formal = sortFlags s.selectorFlags.formal ++ sortFlags s.formattingFlags.formal ++
            sortFlags s.otherFlags.formal ∧
          m.formal.length = 11 ∧
          s.allFlags.map (fun g => m.Lookup g.name) = s.allFlags.map some ∧
          m.formal.map (fun g => g.value) =
            [.boolValue .selectorOpts_all, .uint64Value .selectorOpts_first,
             .boolValue .selectorOpts_follow, .uint64Value .selectorOpts_last,
             .stringValue .selectorOpts_since, .stringValue .selectorOpts_until,
             .stringValue .formattingOpts_output, .boolValue .formattingOpts_nodeName,
             .stringValue .formattingOpts_timeFormat, .boolValue .otherOpts_printRawFilters,
             .boolValue .otherOpts_ignoreStderr]) :=
  ⟨_, rfl, rfl, rfl, rfl, fun _ _ _ => ⟨_, rfl, rfl, rfl, rfl, rfl⟩⟩

/-! ### Lemmas on the usage texts and on the modelled validators -/

/-- A line without line feed, followed by one, is the first line of a text. -/
theorem splitLines_append_lf (a rest : List Char) (h : '\n' ∉ a) :
    splitLines (a ++ '\n' :: rest) = a :: splitLines rest := by
  induction a with
  | nil => simp [splitLines]
  | cons c cs ih =>
    have hc : c ≠ '\n' := fun e => h (e ▸ List.mem_cons_self _ _)
    have hcs : '\n' ∉ cs := fun e => h (List.mem_cons_of_mem _ e)
    simp [splitLines, hc, ih hcs]

/-- The lines of a listing built line by line. -/
theorem splitLines_listingChars (es : List (List Char × String))
    (h : ∀ e ∈ es, '\n' ∉ e.1 ∧ '\n' ∉ e.2.data) :
    splitLines (listingChars es) = [] :: (es.map (fun e => e.1 ++ e.2.data) ++ [[' ']]) := by
  induction es with
  | nil => rfl
  | cons e es ih =>
    have he := h e (List.mem_cons_self _ _)
    have hes : ∀ x ∈ es, '\n' ∉ x.1 ∧ '\n' ∉ x.2.data := fun x hx => h x (List.mem_cons_of_mem _ hx)
    have ih2 := ih hes
    have hline : '\n' ∉ e.1 ++ e.2.data := by
      simp only [List.mem_append, not_or]; exact he
    show splitLines ('\n' :: (e.1 ++ (e.2.data ++ listingChars es))) = _
    have hsplit : splitLines ('\n' :: (e.1 ++ (e.2.data ++ listingChars es))) =
        [] :: splitLines (e.1 ++ (e.2.data ++ listingChars es)) := by simp [splitLines]
    rw [hsplit]
    cases es with
    | nil =>
      have : e.1 ++ (e.2.data ++ listingChars []) = (e.1 ++ e.2.data) ++ '\n' :: [' '] := by
        simp [listingChars]
      rw [this, splitLines_append_lf _ _ hline]
      rfl
    | cons e2 es2 =>
      have : e.1 ++ (e.2.data ++ listingChars (e2 :: es2)) =
          (e.1 ++ e.2.data) ++ '\n' :: (e2.1 ++ (e2.2.data ++ listingChars es2)) := by
        simp [listingChars]
      rw [this, splitLines_append_lf _ _ hline]
      have ih3 : splitLines ('\n' :: (e2.1 ++ (e2.2.data ++ listingChars es2))) = _ := ih2
      have hsplit2 : splitLines ('\n' :: (e2.1 ++ (e2.2.data ++ listingChars es2))) =
          [] :: splitLines (e2.1 ++ (e2.2.data ++ listingChars es2)) := by simp [splitLines]
      rw [hsplit2] at ih3
      have ih4 := List.tail_eq_of_cons_eq ih3
      rw [ih4]
      rfl

/-- The text `layoutListing` is the listing of `listingParts`. -/
theorem layoutListing_data (C : Consts) : (layoutListing C).data = listingChars (listingParts C) := rfl

/-- A first line that is no entry adds nothing to the entries of a text. -/
theorem usageEntries_header (hdr : String) (C : Consts) (h1 : '\n' ∉ hdr.data)
    (h2 : usageEntry hdr.data = none) :
    usageEntries (hdr ++ layoutListing C) = usageEntries (layoutListing C) := by
  unfold usageEntries
  have hd : (hdr ++ layoutListing C).data = hdr.data ++ '\n' :: (listingChars (listingParts C)).tail := rfl
  have hl : (layoutListing C).data = '\n' :: (listingChars (listingParts C)).tail := rfl
  rw [hd, hl, splitLines_append_lf _ _ h1]
  have : splitLines ('\n' :: (listingChars (listingParts C)).tail) =
      [] :: splitLines (listingChars (listingParts C)).tail := by simp [splitLines]
  rw [this]
  have e0 : usageEntry [] = none := rfl
  simp only [List.filterMap_cons, h2, e0]

/-- The entries of `layoutListing` when no layout holds a line feed. -/
theorem usageEntries_layoutListing (C : Consts) (h : C.singleLine) :
    usageEntries (layoutListing C) = listedLayouts C := by
  unfold usageEntries
  rw [layoutListing_data, splitLines_listingChars]
  · rfl
  · intro e he
    simp only [listingParts, List.mem_cons, List.mem_singleton, List.not_mem_nil, or_false] at he
    have hC : ∀ l ∈ C.layouts, '\n' ∉ l.data := h
    simp only [Consts.layouts, List.mem_cons, List.mem_singleton, List.not_mem_nil, or_false,
      forall_eq_or_imp, forall_eq] at hC
    obtain ⟨c1, c2, c3, c4, c5, c6, c7, c8, c9⟩ := hC
    rcases he with rfl | rfl | rfl | rfl | rfl | rfl | rfl | rfl | rfl
    · exact ⟨(by decide : '\n' ∉ "  StampMilli:             ".data), c1⟩
    · exact ⟨(by decide : '\n' ∉ "  YearMonthDay:           ".data), c2⟩
    · exact ⟨(by decide : '\n' ∉ "  YearMonthDayHour:       ".data), c3⟩
    · exact ⟨(by decide : '\n' ∉ "  YearMonthDayHourMinute: ".data), c4⟩
    · exact ⟨(by decide : '\n' ∉ "  RFC3339:                ".data), c5⟩
    · exact ⟨(by decide : '\n' ∉ "  RFC3339Milli:           ".data), c6⟩
    · exact ⟨(by decide : '\n' ∉ "  RFC3339Micro:           ".data), c7⟩
    · exact ⟨(by decide : '\n' ∉ "  RFC3339Nano:            ".data), c8⟩
    · exact ⟨(by decide : '\n' ∉ "  RFC1123Z:               ".data), c9⟩

/-- The sample layouts hold no line feed. -/
theorem sample_singleLine : Consts.sample.singleLine := by
  show ∀ l ∈ Consts.sample.layouts, '\n' ∉ l.data
  decide

/-- The time-format parse accepts exactly the nine names. -/
theorem parseTimeFormat_ok_iff (x : String) :
    (∃ t, parseTimeFormat x = .ok t) ↔
      x ∈ ["StampMilli", "YearMonthDay", "YearMonthDayHour", "YearMonthDayHourMinute", "RFC3339",
        "RFC3339Milli", "RFC3339Micro", "RFC3339Nano", "RFC1123Z"] := by
  constructor
  · rintro ⟨t, ht⟩
    unfold parseTimeFormat at ht
    cases hf : TimeFormatSpec.all.find? (fun t => decide (t.name = x)) with
    | none => rw [hf] at ht; cases ht
    | some u =>
      have hu : u.name = x := by simpa using List.find?_some hf
      rw [← hu]
      cases u <;> decide
  · intro hx
    simp only [List.mem_cons, List.mem_singleton, List.not_mem_nil, or_false] at hx
    rcases hx with h | h | h | h | h | h | h | h | h <;> subst h <;> exact ⟨_, rfl⟩

/-- The first layout of a list that matches an input wins. -/
theorem parseAbsoluteIn_first (tryLayout : TimeFormatSpec → String → Option Int)
    (pre : List TimeFormatSpec) (l : TimeFormatSpec) (post : List TimeFormatSpec) (input : String)
    (t : Int) (hpre : ∀ p ∈ pre, tryLayout p input = none) (hl : tryLayout l input = some t) :
    parseAbsoluteIn tryLayout (pre ++ l :: post) input = some (l, t) := by
  induction pre with
  | nil => simp [parseAbsoluteIn, hl]
  | cons p ps ih =>
    have hp : tryLayout p input = none := hpre p (List.mem_cons_self _ _)
    have hps : ∀ q ∈ ps, tryLayout q input = none := fun q hq => hpre q (List.mem_cons_of_mem _ hq)
    simp [parseAbsoluteIn, hp, ih hps]

/-- With none of `all`, `last`, `first` given and `follow` false, `build` gives
the query bounded by the default count when the time bounds are in order. -/
theorem build_default_ok (C : Consts) (allMode : Mode) (P : TimeParsers) (now : Int)
    (since until_ : String) (a b : Option TimeBoundary)
    (ha : resolve P since now = .ok a) (hb : resolve P until_ now = .ok b)
    (hab : ∀ x y, a = some x → b = some y → x.instant ≤ y.instant) :
    build C allMode P now
        { all := false, last := 0, since := since, until_ := until_, follow := false, first := 0 } =
      .ok { mode := .Bounded C.FlowPrintCount .Last, since := a, until_ := b, follow := false } := by
  unfold build
  simp only [givenSelectors, ha, hb, DefaultFlowCount]
  cases a with
  | none => simp
  | some x =>
    cases b with
    | none => simp
    | some y => simp [hab x y rfl rfl]

/-- With none of `all`, `last`, `first` given and `follow` false, a query that
`build` returns has the mode bounded by the default count. -/
theorem build_default_mode (C : Consts) (allMode : Mode) (P : TimeParsers) (now : Int)
    (since until_ : String) (q : QueryDescriptor)
    (h : build C allMode P now
        { all := false, last := 0, since := since, until_ := until_, follow := false, first := 0 } =
      .ok q) :
    q = { mode := .Bounded C.FlowPrintCount .Last, since := q.since, until_ := q.until_,
          follow := false } ∧
      resolve P since now = .ok q.since ∧ resolve P until_ now = .ok q.until_ := by
  unfold build at h
  simp only [givenSelectors, DefaultFlowCount] at h
  cases ha : resolve P since now with
  | error e => rw [ha] at h; simp at h
  | ok a =>
    cases hb : resolve P until_ now with
    | error e => rw [ha, hb] at h; simp at h
    | ok b =>
      rw [ha, hb] at h
      cases a with
      | none =>
        simp at h
        subst h
        exact ⟨rfl, rfl, rfl⟩
      | some x =>
        cases b with
        | none =>
          simp at h
          subst h
          exact ⟨rfl, rfl, rfl⟩
        | some y =>
          by_cases hxy : x.instant ≤ y.instant
          · simp [hxy] at h
            subst h
            exact ⟨rfl, rfl, rfl⟩
          · simp [hxy] at h

/-! ### The claims -/

/-- C1: after `init` the flag sets `selectors`, `Formatting` and `other` hold
exactly the eleven options of the table, six, three and two of them, each with
the type and the default of the table, and the bound variables hold those
defaults. -/
theorem init_registers_exactly_the_table (C : Consts) :
    ∃ s, init C State.initial = .ok s ∧
      s.selectorFlags.name = "selectors" ∧ s.formattingFlags.name = "Formatting" ∧
      s.otherFlags.name = "other" ∧
      s.selectorFlags.formal.map (fun g => (g.name, g.value.typeName, g.defValue, g.value.load s.vars)) =
        [("all", "bool", "false", .bool false), ("last", "uint64", "0", .uint64 0),
         ("first", "uint64", "0", .uint64 0), ("follow", "bool", "false", .bool false),
         ("since", "string", "", .string ""), ("until", "string", "", .string "")] ∧
      s.formattingFlags.formal.map (fun g => (g.name, g.value.typeName, g.defValue, g.value.load s.vars)) =
        [("output", "string", "compact", .string "compact"),
         ("print-node-name", "bool", "false", .bool false),
         ("time-format", "string", "StampMilli", .string "StampMilli")] ∧
      s.otherFlags.formal.map (fun g => (g.name, g.value.typeName, g.defValue, g.value.load s.vars)) =
        [("silent-errors", "bool", "false", .bool false),
         ("print-raw-filters", "bool", "false", .bool false)] ∧
      s.allFlags.length = 11 :=
  ⟨_, rfl, rfl, rfl, rfl, rfl, rfl, rfl, rfl⟩

/-- C2: `New` returns the command of `newObserveCmd vp` with its own fields
untouched and with exactly three commands appended to its children: those of
`newAgentEventsCommand vp`, `newDebugEventsCommand vp` and `newFlowsCmd vp`, all
built from the `vp` that `New` received. -/
theorem New_attaches_three_subcommands {Viper Body : Type} (K : Constructors Viper Body) (vp : Viper) :
    (New K vp).body = (K.newObserveCmd vp).body ∧
      (New K vp).commands =
        (K.newObserveCmd vp).commands ++
          [K.newAgentEventsCommand vp, K.newDebugEventsCommand vp, K.newFlowsCmd vp] ∧
      (New K vp).commands.length = (K.newObserveCmd vp).commands.length + 3 ∧
      List.Perm [K.newAgentEventsCommand vp, K.newDebugEventsCommand vp, K.newFlowsCmd vp]
        [K.newFlowsCmd vp, K.newAgentEventsCommand vp, K.newDebugEventsCommand vp] := by
  refine ⟨rfl, rfl, ?_, ?_⟩
  · simp [New, Command.AddCommand, Command.commands]
  · exact (List.perm_append_comm :
      List.Perm ([K.newAgentEventsCommand vp, K.newDebugEventsCommand vp] ++ [K.newFlowsCmd vp]) _)

/-- C3: of the eleven registered options exactly three have a shorthand,
`follow` is `f`, `output` is `o` and `silent-errors` is `s`; the other eight
have the empty shorthand. -/
theorem exactly_three_shorthands (C : Consts) :
    ∃ s, init C State.initial = .ok s ∧
      s.allFlags.map (fun g => (g.name, g.shorthand)) =
        [("all", ""), ("last", ""), ("first", ""), ("follow", "f"), ("since", ""), ("until", ""),
         ("output", "o"), ("print-node-name", ""), ("time-format", ""),
         ("silent-errors", "s"), ("print-raw-filters", "")] ∧
      ((s.allFlags.filter (fun g => decide (g.shorthand ≠ ""))).map (fun g => (g.name, g.shorthand)) =
        [("follow", "f"), ("output", "o"), ("silent-errors", "s")]) ∧
      (s.selectorFlags.lookupShorthand "f").map (fun g => g.name) = some "follow" ∧
      (s.formattingFlags.lookupShorthand "o").map (fun g => g.name) = some "output" ∧
      (s.otherFlags.lookupShorthand "s").map (fun g => g.name) = some "silent-errors" :=
  ⟨_, rfl, rfl, rfl, rfl, rfl, rfl⟩

/-- C4: on the selector values of `selectorOpts`, whenever one of the pairs
`all` and `last`, `all` and `first`, `last` and `first` is given (`all` true, a
count above zero), more than one selector is given and `build` fails with
`ConflictingSelectors`, whatever the time bounds and `follow` are. -/
theorem build_rejects_conflicting_selectors (C : Consts) (allMode : Mode) (P : TimeParsers) (now : Int)
    (o : SelectorOpts)
    (h : (o.all = true ∧ 0 < o.last) ∨ (o.all = true ∧ 0 < o.first) ∨ (0 < o.last ∧ 0 < o.first)) :
    1 < (givenSelectors o).length ∧
      build C allMode P now o = .error (.ConflictingSelectors (givenSelectors o)) := by
  have hlen : 1 < (givenSelectors o).length := by
    rcases h with ⟨h1, h2⟩ | ⟨h1, h2⟩ | ⟨h1, h2⟩ <;>
      by_cases ha : o.all = true <;> by_cases hl : 0 < o.last <;> by_cases hf : 0 < o.first <;>
      simp_all [givenSelectors]
  exact ⟨hlen, by simp [build, hlen]⟩

/-- C4, at concrete values: the three pairs and the triple are rejected. -/
theorem build_rejects_conflicting_selectors_witness :
    build Consts.sample .Unbounded TimeParsers.none 0
        { all := true, last := 5, since := "", until_ := "", follow := false, first := 0 } =
        .error (.ConflictingSelectors ["all", "last"]) ∧
      build Consts.sample .Unbounded TimeParsers.none 0
        { all := true, last := 0, since := "", until_ := "", follow := false, first := 7 } =
        .error (.ConflictingSelectors ["all", "first"]) ∧
      build Consts.sample .Unbounded TimeParsers.none 0
        { all := false, last := 5, since := "", until_ := "", follow := true, first := 7 } =
        .error (.ConflictingSelectors ["last", "first"]) ∧
      build Consts.sample .Unbounded TimeParsers.none 0
        { all := true, last := 5, since := "x", until_ := "", follow := false, first := 7 } =
        .error (.ConflictingSelectors ["all", "last", "first"]) :=
  ⟨(build_rejects_conflicting_selectors Consts.sample .Unbounded TimeParsers.none 0
      { all := true, last := 5, since := "", until_ := "", follow := false, first := 0 }
      (Or.inl ⟨rfl, by decide⟩)).2,
   (build_rejects_conflicting_selectors Consts.sample .Unbounded TimeParsers.none 0
      { all := true, last := 0, since := "", until_ := "", follow := false, first := 7 }
      (Or.inr (Or.inl ⟨rfl, by decide⟩))).2,
   (build_rejects_conflicting_selectors Consts.sample .Unbounded TimeParsers.none 0
      { all := false, last := 5, since := "", until_ := "", follow := true, first := 7 }
      (Or.inr (Or.inr ⟨by decide, by decide⟩))).2,
   (build_rejects_conflicting_selectors Consts.sample .Unbounded TimeParsers.none 0
      { all := true, last := 5, since := "x", until_ := "", follow := false, first := 7 }
      (Or.inl ⟨rfl, by decide⟩)).2⟩

/-- C5: when none of `all`, `last`, `first` is given and `follow` is false,
whatever the time bounds are, every query `build` returns is
`Bounded(FlowPrintCount, Last)`, and `build` does return it whenever the time
bounds resolve and are in order; so it is on the selector values that `init`
leaves. The flag `last` is registered with the default `0` while its usage
text gives `FlowPrintCount` as the default: the count of the query is the
constant and not the registered `0`. -/
theorem default_query_is_bounded_by_FlowPrintCount (C : Consts) (allMode : Mode) (P : TimeParsers)
    (now : Int) :
    (∀ (since until_ : String) (q : QueryDescriptor),
        build C allMode P now
          { all := false, last := 0, since := since, until_ := until_, follow := false, first := 0 } =
          .ok q →
        q.mode = .Bounded C.FlowPrintCount .Last ∧ q.follow = false) ∧
      (∀ (since until_ : String) (a b : Option TimeBoundary),
        resolve P since now = .ok a → resolve P until_ now = .ok b →
        (∀ x y, a = some x → b = some y → x.instant ≤ y.instant) →
        build C allMode P now
          { all := false, last := 0, since := since, until_ := until_, follow := false, first := 0 } =
          .ok { mode := .Bounded C.FlowPrintCount .Last, since := a, until_ := b, follow := false }) ∧
      ∃ s, init C State.initial = .ok s ∧
        s.vars.selectorOpts =
          { all := false, last := 0, since := "", until_ := "", follow := false, first := 0 } ∧
        build C allMode P now s.vars.selectorOpts =
          .ok { mode := .Bounded C.FlowPrintCount .Last, since := none, until_ := none,
                follow := false } ∧
        (s.selectorFlags.Lookup "last").map (fun g => (g.defValue, g.value.load s.vars, g.usage)) =
          some ("0", .uint64 0,
            "Get last N flows stored in Hubble's buffer (default " ++ toString C.FlowPrintCount ++ ")") ∧
        (C.FlowPrintCount ≠ 0 →
          build C allMode P now s.vars.selectorOpts ≠
            .ok { mode := .Bounded 0 .Last, since := none, until_ := none, follow := false }) := by
  refine ⟨?_, ?_, ?_⟩
  · intro since until_ q h
    have hq := (build_default_mode C allMode P now since until_ q h).1
    rw [hq]
    exact ⟨rfl, rfl⟩
  · intro since until_ a b ha hb hab
    exact build_default_ok C allMode P now since until_ a b ha hb hab
  · refine ⟨_, rfl, rfl, rfl, rfl, ?_⟩
    intro hne heq
    have h2 : build C allMode P now
        { all := false, last := 0, since := "", until_ := "", follow := false, first := 0 } =
        .ok { mode := .Bounded C.FlowPrintCount .Last, since := none, until_ := none,
              follow := false } := rfl
    have h3 := h2.symm.trans heq
    injection h3 with h4
    injection h4 with h5
    injection h5 with h6
    exact hne h6

/-- C5, at the sample constants: with a time bound given, `since` one hour
before now, the default count is still 20, not 0. -/
theorem default_query_is_bounded_by_FlowPrintCount_witness :
    build Consts.sample .Unbounded
        { parseDuration := fun e => if e = "1h" then some 3600 else none,
          parseAbsolute := fun _ => none } 10000
        { all := false, last := 0, since := "1h", until_ := "", follow := false, first := 0 } =
      .ok { mode := .Bounded 20 .Last, since := some (.Relative 6400), until_ := none,
            follow := false } :=
  (default_query_is_bounded_by_FlowPrintCount Consts.sample .Unbounded
      { parseDuration := fun e => if e = "1h" then some 3600 else none,
        parseAbsolute := fun _ => none } 10000).2.1
    "1h" "" (some (.Relative 6400)) none rfl rfl (fun _ _ _ h => nomatch h)

/-- C6: the usage text of `--output`, as registered by `init`, declares the five
formats compact, dict, jsonpb, json and table and no other; the registered
default `compact` is one of them; the text calls `json` an alias for `jsonpb`,
and the dispatcher of the specification accepts exactly the declared formats
and maps `json` and `jsonpb` to the same encoding. -/
theorem output_formats_are_the_closed_set (C : Consts) :
    ∃ s g, init C State.initial = .ok s ∧ s.formattingFlags.Lookup "output" = some g ∧
      (usageEntries g.usage).map (fun e => e.1) = ["compact", "dict", "jsonpb", "json", "table"] ∧
      g.defValue = "compact" ∧ g.defValue ∈ (usageEntries g.usage).map (fun e => e.1) ∧
      (usageEntries g.usage).lookup "json" = some "Alias for jsonpb" ∧
      parseOutput "json" = parseOutput "jsonpb" ∧ parseOutput "jsonpb" = .ok .JSON ∧
      (∀ x, (∃ e, parseOutput x = .ok e) ↔ x ∈ (usageEntries g.usage).map (fun e => e.1)) := by
  refine ⟨_, _, rfl, rfl, ?_⟩
  have hn : (usageEntries outputUsage).map (fun e => e.1) =
      ["compact", "dict", "jsonpb", "json", "table"] := by decide
  refine ⟨hn, rfl, ?_, by decide, rfl, rfl, ?_⟩
  · show "compact" ∈ (usageEntries outputUsage).map (fun e => e.1)
    rw [hn]; decide
  · intro x
    show (∃ e, parseOutput x = .ok e) ↔ x ∈ (usageEntries outputUsage).map (fun e => e.1)
    rw [hn]
    unfold parseOutput
    constructor
    · rintro ⟨e, he⟩
      by_contra hx
      simp only [List.mem_cons, List.mem_singleton, List.not_mem_nil, or_false, not_or] at hx
      obtain ⟨h1, h2, h3, h4, h5⟩ := hx
      simp [h1, h2, h3, h4, h5] at he
    · intro hx
      simp only [List.mem_cons, List.mem_singleton, List.not_mem_nil, or_false] at hx
      rcases hx with h | h | h | h | h <;> subst h <;> simp

/-- C7: the usage text that `init` registers for `--time-format` is its first
line followed by the listing of the nine layouts; read off that text (no layout
holding a line feed), the names are exactly the nine, pairwise distinct; the
registered default `StampMilli` is one of them; and the time-format parse of
the specification accepts exactly the names the text lists, so the option is a
closed enumeration. -/
theorem time_format_is_one_of_nine_names (C : Consts) :
    ∃ s g, init C State.initial = .ok s ∧ s.formattingFlags.Lookup "time-format" = some g ∧
      Sprintf timeFormatUsageFormat (timeFormatOperands C) = .ok g.usage ∧
      g.usage =
        "Specify the time format for printing. This option does not apply to the json and jsonpb output type. One of:" ++
          layoutListing C ∧
      g.defValue = "StampMilli" ∧ g.value.load s.vars = .string "StampMilli" ∧
      parseTimeFormat g.defValue = .ok .StampMilli ∧
      (C.singleLine →
        usageEntries g.usage = listedLayouts C ∧
        (usageEntries g.usage).map (fun e => e.1) =
          ["StampMilli", "YearMonthDay", "YearMonthDayHour", "YearMonthDayHourMinute", "RFC3339",
           "RFC3339Milli", "RFC3339Micro", "RFC3339Nano", "RFC1123Z"] ∧
        ((usageEntries g.usage).map (fun e => e.1)).length = 9 ∧
        ((usageEntries g.usage).map (fun e => e.1)).Nodup ∧
        g.defValue ∈ (usageEntries g.usage).map (fun e => e.1) ∧
        (∀ x, (∃ t, parseTimeFormat x = .ok t) ↔ x ∈ (usageEntries g.usage).map (fun e => e.1))) := by
  have hev : ∃ s g, init C State.initial = .ok s ∧
      s.formattingFlags.Lookup "time-format" = some g ∧
      Sprintf timeFormatUsageFormat (timeFormatOperands C) = .ok g.usage ∧
      g.usage =
        "Specify the time format for printing. This option does not apply to the json and jsonpb output type. One of:" ++
          layoutListing C ∧
      g.defValue = "StampMilli" ∧ g.value.load s.vars = .string "StampMilli" :=
    ⟨_, _, rfl, rfl, rfl, rfl, rfl, rfl⟩
  obtain ⟨s, g, hs, hg, hsp, hu, hd, hv⟩ := hev
  refine ⟨s, g, hs, hg, hsp, hu, hd, hv, by rw [hd]; rfl, ?_⟩
  intro hC
  have hent : usageEntries g.usage = listedLayouts C := by
    rw [hu, usageEntries_header _ C (by decide) (by decide)]
    exact usageEntries_layoutListing C hC
  have hnames : (usageEntries g.usage).map (fun e => e.1) =
      ["StampMilli", "YearMonthDay", "YearMonthDayHour", "YearMonthDayHourMinute", "RFC3339",
       "RFC3339Milli", "RFC3339Micro", "RFC3339Nano", "RFC1123Z"] := by
    rw [hent]; rfl
  refine ⟨hent, hnames, ?_, ?_, ?_, ?_⟩
  · rw [hnames]; rfl
  · rw [hnames]; decide
  · rw [hnames, hd]; decide
  · intro x
    rw [hnames]
    exact parseTimeFormat_ok_iff x

/-- C7, at the sample constants: the names read off the registered text are
the nine. -/
theorem time_format_is_one_of_nine_names_witness :
    ∃ s g, init Consts.sample State.initial = .ok s ∧
      s.formattingFlags.Lookup "time-format" = some g ∧
      (usageEntries g.usage).map (fun e => e.1) =
        ["StampMilli", "YearMonthDay", "YearMonthDayHour", "YearMonthDayHourMinute", "RFC3339",
         "RFC3339Milli", "RFC3339Micro", "RFC3339Nano", "RFC1123Z"] := by
  obtain ⟨s, g, hs, hg, _, _, _, _, _, h⟩ := time_format_is_one_of_nine_names Consts.sample
  exact ⟨s, g, hs, hg, (h sample_singleLine).2.1⟩

/-- C8: the list of absolute layouts that the resolver of the specification
goes through is StampMilli, RFC3339Nano, RFC3339Micro, RFC3339Milli, RFC3339,
RFC1123Z, YearMonthDayHourMinute, YearMonthDayHour, YearMonthDay; in it every
layout whose name extends that of another stands before the shorter one; the
first layout of the list that matches an input wins; and the nine are the
layouts that the usage texts of `--since` and `--until` registered by `init`
list (no layout holding a line feed). -/
theorem absolute_layouts_most_specific_first (C : Consts)
    (tryLayout : TimeFormatSpec → String → Option Int) :
    absoluteLayouts.map (fun t => t.name) =
        ["StampMilli", "RFC3339Nano", "RFC3339Micro", "RFC3339Milli", "RFC3339", "RFC1123Z",
         "YearMonthDayHourMinute", "YearMonthDayHour", "YearMonthDay"] ∧
      absoluteLayouts.Nodup ∧
      (∀ a ∈ absoluteLayouts, ∀ b ∈ absoluteLayouts, extendsName a.name b.name = true →
        precedes a.name b.name (absoluteLayouts.map (fun t => t.name)) = true) ∧
      (extendsName "YearMonthDayHour" "YearMonthDay" = true ∧
        precedes "YearMonthDayHour" "YearMonthDay" (absoluteLayouts.map (fun t => t.name)) = true) ∧
      (∀ (pre : List TimeFormatSpec) (l : TimeFormatSpec) (post : List TimeFormatSpec)
          (input : String) (t : Int),
        absoluteLayouts = pre ++ l :: post → (∀ p ∈ pre, tryLayout p input = none) →
        tryLayout l input = some t →
        parseAbsoluteIn tryLayout absoluteLayouts input = some (l, t) ∧
          ∀ parseDuration, (TimeParsers.ordered parseDuration tryLayout).parseAbsolute input = some t) ∧
      (∃ s gs gu, init C State.initial = .ok s ∧
        s.selectorFlags.Lookup "since" = some gs ∧ s.selectorFlags.Lookup "until" = some gu ∧
        (C.singleLine →
          List.Perm (absoluteLayouts.map (fun t => t.name)) ((usageEntries gs.usage).map (fun e => e.1)) ∧
          List.Perm (absoluteLayouts.map (fun t => t.name)) ((usageEntries gu.usage).map (fun e => e.1)))) := by
  refine ⟨rfl, by decide, by decide, by decide, ?_, ?_⟩
  · intro pre l post input t hsplit hpre hl
    have h1 : parseAbsoluteIn tryLayout absoluteLayouts input = some (l, t) := by
      rw [hsplit]
      exact parseAbsoluteIn_first tryLayout pre l post input t hpre hl
    refine ⟨h1, fun parseDuration => ?_⟩
    show (parseAbsoluteIn tryLayout absoluteLayouts input).map (fun r => r.2) = some t
    rw [h1]
    rfl
  · have hev : ∃ s gs gu, init C State.initial = .ok s ∧
        s.selectorFlags.Lookup "since" = some gs ∧ s.selectorFlags.Lookup "until" = some gu ∧
        gs.usage =
          "Filter flows since a specific date. The format is relative (e.g. 3s, 4m, 1h43,, ...) or one of:" ++
            layoutListing C ∧
        gu.usage =
          "Filter flows until a specific date. The format is relative (e.g. 3s, 4m, 1h43,, ...) or one of:" ++
            layoutListing C :=
      ⟨_, _, _, rfl, rfl, rfl, rfl, rfl⟩
    obtain ⟨s, gs, gu, hs, hgs, hgu, hus, huu⟩ := hev
    refine ⟨s, gs, gu, hs, hgs, hgu, ?_⟩
    intro hC
    have h1 : usageEntries gs.usage = listedLayouts C := by
      rw [hus, usageEntries_header _ C (by decide) (by decide)]
      exact usageEntries_layoutListing C hC
    have h2 : usageEntries gu.usage = listedLayouts C := by
      rw [huu, usageEntries_header _ C (by decide) (by decide)]
      exact usageEntries_layoutListing C hC
    have hn : (listedLayouts C).map (fun e => e.1) =
        ["StampMilli", "YearMonthDay", "YearMonthDayHour", "YearMonthDayHourMinute", "RFC3339",
         "RFC3339Milli", "RFC3339Micro", "RFC3339Nano", "RFC1123Z"] := rfl
    rw [h1, h2, hn]
    exact ⟨by decide, by decide⟩

/-- C8, at the sample constants and an input that the layouts
`YearMonthDayHour` and `YearMonthDay` both match and no other does: the longer
layout wins. -/
theorem absolute_layouts_most_specific_first_witness :
    parseAbsoluteIn
        (fun l _ => if l = .YearMonthDayHour then some 2 else if l = .YearMonthDay then some 1 else none)
        absoluteLayouts "x" = some (.YearMonthDayHour, 2) :=
  ((absolute_layouts_most_specific_first Consts.sample
      (fun l _ => if l = .YearMonthDayHour then some 2 else if l = .YearMonthDay then some 1 else none)).2.2.2.2.1
    [.StampMilli, .RFC3339Nano, .RFC3339Micro, .RFC3339Milli, .RFC3339, .RFC1123Z,
      .YearMonthDayHourMinute]
    .YearMonthDayHour [.YearMonthDay] "x" 2 rfl (by decide) rfl).1

/-- C9: the usage texts that `init` registers for `--since`, `--until` and
`--time-format` are each a first line followed by one and the same listing,
which pairs the nine names, in the same order, with the same nine layout
constants; so the three texts enumerate the same list of pairs of a name and a
layout (read off the texts, the nine pairs, when no layout holds a line feed),
and the texts of `--since` and `--until` are the same but for the word `since`
or `until`. The three `fmt.Sprintf` calls take the same operands and their
formats list the same names, one verb each. -/
theorem help_texts_enumerate_the_same_layouts (C : Consts) :
    sinceOperands C = untilOperands C ∧ untilOperands C = timeFormatOperands C ∧
      layoutTable sinceUsageFormat (sinceOperands C) =
        [("StampMilli", .str C.StampMilli), ("YearMonthDay", .str C.YearMonthDay),
         ("YearMonthDayHour", .str C.YearMonthDayHour),
         ("YearMonthDayHourMinute", .str C.YearMonthDayHourMinute),
         ("RFC3339", .str C.RFC3339), ("RFC3339Milli", .str C.RFC3339Milli),
         ("RFC3339Micro", .str C.RFC3339Micro), ("RFC3339Nano", .str C.RFC3339Nano),
         ("RFC1123Z", .str C.RFC1123Z)] ∧
      layoutTable untilUsageFormat (untilOperands C) = layoutTable sinceUsageFormat (sinceOperands C) ∧
      layoutTable timeFormatUsageFormat (timeFormatOperands C) =
        layoutTable sinceUsageFormat (sinceOperands C) ∧
      (verbCount sinceUsageFormat = 9 ∧ verbCount untilUsageFormat = 9 ∧
        verbCount timeFormatUsageFormat = 9) ∧
      (∃ tail : String, sinceUsageFormat = "Filter flows since" ++ tail ∧
        untilUsageFormat = "Filter flows until" ++ tail) ∧
      (∃ s gs gu gt, init C State.initial = .ok s ∧
        s.selectorFlags.Lookup "since" = some gs ∧ s.selectorFlags.Lookup "until" = some gu ∧
        s.formattingFlags.Lookup "time-format" = some gt ∧
        Sprintf sinceUsageFormat (sinceOperands C) = .ok gs.usage ∧
        Sprintf untilUsageFormat (untilOperands C) = .ok gu.usage ∧
        Sprintf timeFormatUsageFormat (timeFormatOperands C) = .ok gt.usage ∧
        gs.usage =
          "Filter flows since a specific date. The format is relative (e.g. 3s, 4m, 1h43,, ...) or one of:" ++
            layoutListing C ∧
        gu.usage =
          "Filter flows until a specific date. The format is relative (e.g. 3s, 4m, 1h43,, ...) or one of:" ++
            layoutListing C ∧
        gt.usage =
          "Specify the time format for printing. This option does not apply to the json and jsonpb output type. One of:" ++
            layoutListing C ∧
        (∃ rest : String, gs.usage = "Filter flows since" ++ rest ∧
          gu.usage = "Filter flows until" ++ rest) ∧
        usageEntries gu.usage = usageEntries gs.usage ∧
        usageEntries gt.usage = usageEntries gs.usage ∧
        (C.singleLine →
          usageEntries gs.usage =
            [("StampMilli", String.mk (dropBlanks C.StampMilli.data)),
             ("YearMonthDay", String.mk (dropBlanks C.YearMonthDay.data)),
             ("YearMonthDayHour", String.mk (dropBlanks C.YearMonthDayHour.data)),
             ("YearMonthDayHourMinute", String.mk (dropBlanks C.YearMonthDayHourMinute.data)),
             ("RFC3339", String.mk (dropBlanks C.RFC3339.data)),
             ("RFC3339Milli", String.mk (dropBlanks C.RFC3339Milli.data)),
             ("RFC3339Micro", String.mk (dropBlanks C.RFC3339Micro.data)),
             ("RFC3339Nano", String.mk (dropBlanks C.RFC3339Nano.data)),
             ("RFC1123Z", String.mk (dropBlanks C.RFC1123Z.data))])) := by
  refine ⟨rfl, rfl, rfl, rfl, rfl, ⟨by decide, by decide, by decide⟩,
    ⟨String.mk (sinceUsageFormat.data.drop 18), by decide, by decide⟩, ?_⟩
  have hev : ∃ s gs gu gt, init C State.initial = .ok s ∧
      s.selectorFlags.Lookup "since" = some gs ∧ s.selectorFlags.Lookup "until" = some gu ∧
      s.formattingFlags.Lookup "time-format" = some gt ∧
      Sprintf sinceUsageFormat (sinceOperands C) = .ok gs.usage ∧
      Sprintf untilUsageFormat (untilOperands C) = .ok gu.usage ∧
      Sprintf timeFormatUsageFormat (timeFormatOperands C) = .ok gt.usage ∧
      gs.usage =
        "Filter flows since a specific date. The format is relative (e.g. 3s, 4m, 1h43,, ...) or one of:" ++
          layoutListing C ∧
      gu.usage =
        "Filter flows until a specific date. The format is relative (e.g. 3s, 4m, 1h43,, ...) or one of:" ++
          layoutListing C ∧
      gt.usage =
        "Specify the time format for printing. This option does not apply to the json and jsonpb output type. One of:" ++
          layoutListing C :=
    ⟨_, _, _, _, rfl, rfl, rfl, rfl, rfl, rfl, rfl, rfl, rfl, rfl⟩
  obtain ⟨s, gs, gu, gt, hs, hgs, hgu, hgt, hss, hsu, hst, hus, huu, hut⟩ := hev
  have es : usageEntries gs.usage = usageEntries (layoutListing C) := by
    rw [hus]; exact usageEntries_header _ C (by decide) (by decide)
  have eu : usageEntries gu.usage = usageEntries (layoutListing C) := by
    rw [huu]; exact usageEntries_header _ C (by decide) (by decide)
  have et : usageEntries gt.usage = usageEntries (layoutListing C) := by
    rw [hut]; exact usageEntries_header _ C (by decide) (by decide)
  refine ⟨s, gs, gu, gt, hs, hgs, hgu, hgt, hss, hsu, hst, hus, huu, hut, ?_, eu.trans es.symm,
    et.trans es.symm, ?_⟩
  · refine ⟨" a specific date. The format is relative (e.g. 3s, 4m, 1h43,, ...) or one of:" ++
      layoutListing C, ?_, ?_⟩
    · rw [hus]; rfl
    · rw [huu]; rfl
  · intro hC
    rw [es, usageEntries_layoutListing C hC]
    rfl

/-- C9, at the sample constants: the pairs read off the registered text of
`--until` are the nine names with the nine layouts. -/
theorem help_texts_enumerate_the_same_layouts_witness :
    ∃ s gu, init Consts.sample State.initial = .ok s ∧ s.selectorFlags.Lookup "until" = some gu ∧
      usageEntries gu.usage =
        [("StampMilli", "Jan _2 15:04:05.000"), ("YearMonthDay", "2006-01-02"),
         ("YearMonthDayHour", "2006-01-02T15Z07:00"),
         ("YearMonthDayHourMinute", "2006-01-02T15:04Z07:00"),
         ("RFC3339", "2006-01-02T15:04:05Z07:00"),
         ("RFC3339Milli", "2006-01-02T15:04:05.999Z07:00"),
         ("RFC3339Micro", "2006-01-02T15:04:05.999999Z07:00"),
         ("RFC3339Nano", "2006-01-02T15:04:05.999999999Z07:00"),
         ("RFC1123Z", "Mon, 02 Jan 2006 15:04:05 -0700")] := by
  obtain ⟨_, _, _, _, _, _, _, s, gs, gu, gt, hs, _, hgu, _, _, _, _, _, _, _, _, heq, _, hall⟩ :=
    help_texts_enumerate_the_same_layouts Consts.sample
  refine ⟨s, gu, hs, hgu, ?_⟩
  rw [heq, hall sample_singleLine]
  decide

/-- C10: after `init`, across the three flag sets no two options share a name,
no two share a shorthand and no two are bound to the same variable; merging
the three sets into an empty flag set of a command keeps all eleven flags, each
found under its name; and in the merged set, setting one option leaves every
flag of another name in place and the variable it is bound to unchanged. -/
theorem registered_options_never_collide (C : Consts) (parseUint : String → Nat × Bool) :
    ∃ s, init C State.initial = .ok s ∧
      (s.allFlags.map (fun g => g.name)).Nodup ∧
      ((s.allFlags.map (fun g => g.shorthand)).filter (fun x => decide (x ≠ ""))).Nodup ∧
      (s.allFlags.map (fun g => g.value)).Nodup ∧
      (∀ target : FlagSet, target.formal = [] →
        ∃ m, mergeFlags target s = .ok m ∧
          m.formal = sortFlags s.selectorFlags.formal ++ sortFlags s.formattingFlags.formal ++
            sortFlags s.otherFlags.formal ∧
          m.formal.length = 11 ∧ List.Perm m.formal s.allFlags ∧
          (∀ g ∈ s.allFlags, m.Lookup g.name = some g) ∧
          (∀ (name value : String) (v : Vars) (g : Flag), g ∈ m.formal → g.name ≠ name →
            g.value.load (m.Set parseUint name value v).2.2 = g.value.load v ∧
              g ∈ (m.Set parseUint name value v).2.1.formal)) := by
  obtain ⟨s, hs, hnames, hshort, hvalues, hmerge⟩ := init_merge_facts C
  refine ⟨s, hs, ?_, ?_, ?_, ?_⟩
  · rw [hnames]; decide
  · rw [hshort]; decide
  · rw [hvalues]; decide
  · intro target ht
    obtain ⟨n, e, sf, fm⟩ := target
    simp only at ht
    subst ht
    obtain ⟨m, hm, hformal, hlen, hlook, hmv⟩ := hmerge n e sf
    refine ⟨m, hm, hformal, hlen, ?_, List.map_inj_left.mp hlook, ?_⟩
    · rw [hformal]
      exact ((sortFlags_perm _).append (sortFlags_perm _)).append (sortFlags_perm _)
    · intro name value v g hg hne
      refine FlagSet.Set_keeps_other_flags parseUint m ?_ name value v g hg hne
      rw [hmv]; decide

/-- C10, at the sample constants and a flag set named `flows`: setting `last`
to a text parsed as 5 stores 5 in `selectorOpts.last` and leaves the variable
of `first`, which `init` set to 0, unchanged. -/
theorem registered_options_never_collide_witness :
    ∃ s m g, init Consts.sample State.initial = .ok s ∧
      mergeFlags (NewFlagSet "flows" .ContinueOnError) s = .ok m ∧
      m.Lookup "first" = some g ∧ g.name = "first" ∧
      (m.Set (fun _ => (5, true)) "last" "5" s.vars).2.2.selectorOpts.last = 5 ∧
      g.value.load (m.Set (fun _ => (5, true)) "last" "5" s.vars).2.2 = g.value.load s.vars := by
  have hev : ∃ s m g, init Consts.sample State.initial = .ok s ∧
      mergeFlags (NewFlagSet "flows" .ContinueOnError) s = .ok m ∧
      m.Lookup "first" = some g ∧ g.name = "first" ∧
      (m.Set (fun _ => (5, true)) "last" "5" s.vars).2.2.selectorOpts.last = 5 :=
    ⟨_, _, _, rfl, rfl, rfl, rfl, rfl⟩
  obtain ⟨s, m, g, hs, hm, hl, hname, hlast⟩ := hev
  obtain ⟨s1, hs1, _, _, _, hmerge⟩ :=
    registered_options_never_collide Consts.sample (fun _ => (5, true))
  obtain rfl : s1 = s := Except.ok.inj (hs1.symm.trans hs)
  obtain ⟨m1, hm1, _, _, _, _, hset⟩ := hmerge (NewFlagSet "flows" .ContinueOnError) rfl
  obtain rfl : m1 = m := Except.ok.inj (hm1.symm.trans hm)
  refine ⟨s1, m1, g, hs, hm, hl, hname, hlast, ?_⟩
  exact (hset "last" "5" s1.vars g (List.mem_of_find?_eq_some hl)
    (by rw [hname]; decide)).1

end Hubble
